import Mathlib

/-!
Shallow embedding of `src/Aedesmap.py` (version V20), covering the parts the
specification's claims are about: the text-normalization helper
`normalize_str`, the period filter (lines 109-126), the district count table
(lines 189-212, 243), and the overall pipeline ordering of the column checks
and the geocoding loop (lines 79-107).

Timestamps are modelled as `Int` seconds; a calendar date is the floor
division of a timestamp by 86400 (the number of seconds in a day), matching
pandas `.dt.date` / `.normalize()` on the midnight grid.  External library
functions (pandas date parsing, the Nominatim geocoder, the geopandas
spatial join) are modelled as explicit function parameters, since they are
external collaborators of the script, not part of the repository.
-/

/-- Seconds in one day; the grid on which pandas `normalize()` operates. -/
def secsPerDay : Int := 86400

/-- Calendar date (day number) of a timestamp, as pandas `.dt.date`:
floor division of the timestamp by the length of a day. -/
def datePart (ts : Int) : Int := ts / secsPerDay

/-- Midnight of the calendar date of a timestamp, as pandas `.normalize()`. -/
def normalizeTs (ts : Int) : Int := datePart ts * secsPerDay

/-- NFKD decomposition table for the characters relevant to the script,
modelling `unicodedata.normalize("NFKD", s)`: each accented Latin letter
decomposes into its base letter followed by a combining mark; every other
character is left alone. -/
def nfkdChar : Char → List Char
  | 'á' => ['a', '́']
  | 'à' => ['a', '̀']
  | 'â' => ['a', '̂']
  | 'ã' => ['a', '̃']
  | 'ä' => ['a', '̈']
  | 'é' => ['e', '́']
  | 'è' => ['e', '̀']
  | 'ê' => ['e', '̂']
  | 'í' => ['i', '́']
  | 'ì' => ['i', '̀']
  | 'ó' => ['o', '́']
  | 'ò' => ['o', '̀']
  | 'ô' => ['o', '̂']
  | 'õ' => ['o', '̃']
  | 'ö' => ['o', '̈']
  | 'ú' => ['u', '́']
  | 'ù' => ['u', '̀']
  | 'û' => ['u', '̂']
  | 'ü' => ['u', '̈']
  | 'ç' => ['c', '̧']
  | 'Á' => ['A', '́']
  | 'À' => ['A', '̀']
  | 'Â' => ['A', '̂']
  | 'Ã' => ['A', '̃']
  | 'É' => ['E', '́']
  | 'È' => ['E', '̀']
  | 'Ê' => ['E', '̂']
  | 'Í' => ['I', '́']
  | 'Ì' => ['I', '̀']
  | 'Ó' => ['O', '́']
  | 'Ò' => ['O', '̀']
  | 'Ô' => ['O', '̂']
  | 'Õ' => ['O', '̃']
  | 'Ú' => ['U', '́']
  | 'Ù' => ['U', '̀']
  | 'Û' => ['U', '̂']
  | 'Ü' => ['U', '̈']
  | 'Ç' => ['C', '̧']
  | c => [c]

/-- Embedding of `normalize_str` (source lines 65-71): NFKD-decompose,
drop every non-ASCII character (`encode("ASCII", "ignore")`), uppercase. -/
def normalize_str (s : String) : String :=
  String.mk
    (((s.data.flatMap nfkdChar).filter fun c => decide (c.toNat < 128)).map
      Char.toUpper)

/-- Per-character normalization: what `normalize_str` contributes for one
input character.  Two characters with the same `normChar` image are the
same letter up to accents and case, as far as the aggregator can see. -/
def normChar (c : Char) : List Char :=
  ((nfkdChar c).filter fun d => decide (d.toNat < 128)).map Char.toUpper

/-- Occurrence record as it exists at filter time: `Data_interacao` has been
converted to a timestamp (line 107); coordinates may still be missing. -/
structure Record where
  data_interacao : Int
  latitude : Option Int
  longitude : Option Int
  deriving Repr, DecidableEq

/-- Command-line arguments of the script (lines 39-60): `--inicio` and
`--fim` are optional strings, `--ultimos_dias` an optional integer. -/
structure Args where
  inicio : Option String
  fim : Option String
  ultimos_dias : Option Int
  deriving Repr, DecidableEq

/-- Python truthiness of an optional string, as used by `if args.inicio:`
and `if args.fim:`: `None` and the empty string are falsy. -/
def truthy : Option String → Bool
  | none => false
  | some s => !(s == "")

/-- Embedding of the `--inicio` branch (lines 115-120).  `parse` models
`pd.to_datetime` on strings: `none` is a parse failure (the bare `except`).
On success the parsed timestamp is normalized to midnight and records with
`Data_interacao >= dt_inicio` are kept. -/
def filterInicio (parse : String → Option Int) (args : Args)
    (df : List Record) : Except String (List Record) :=
  if truthy args.inicio then
    match parse (args.inicio.getD "") with
    | none => Except.error ("Parâmetro --inicio deve estar no formato YYYY-MM-DD.")
    | some t =>
        Except.ok (df.filter fun r => decide (normalizeTs t ≤ r.data_interacao))
  else Except.ok df

/-- Embedding of the `--fim` branch (lines 121-126): on success the parsed
timestamp is normalized to midnight, one day is added, and records with
`Data_interacao < dt_fim` are kept (strict upper bound). -/
def filterFim (parse : String → Option Int) (args : Args)
    (df : List Record) : Except String (List Record) :=
  if truthy args.fim then
    match parse (args.fim.getD "") with
    | none => Except.error ("Parâmetro --fim deve estar no formato YYYY-MM-DD.")
    | some t =>
        Except.ok
          (df.filter fun r => decide (r.data_interacao < normalizeTs t + secsPerDay))
  else Except.ok df

/-- Embedding of the whole period filter (lines 110-126).  `hoje` is the
local calendar date of "now" (`datetime.today().date()`) as a day number.
If `--ultimos_dias` is present the `--inicio`/`--fim` branches are never
reached; otherwise they run in sequence, each able to fail. -/
def periodFilter (parse : String → Option Int) (hoje : Int) (args : Args)
    (df : List Record) : Except String (List Record) :=
  match args.ultimos_dias with
  | some n =>
      let inicio_data := hoje - (n - 1)
      Except.ok (df.filter fun r => decide (inicio_data ≤ datePart r.data_interacao))
  | none =>
      match filterInicio parse args df with
      | Except.error e => Except.error e
      | Except.ok df1 => filterFim parse args df1

/-- Fixed allow-list of target districts (line 138), already normalized. -/
def TARGETS : List String := ["CAMBUCI", "LIBERDADE", "IPIRANGA"]

/-- Rows produced by the left spatial join (lines 200-205), with the
geometric test abstracted into `sjoinMatches`: for each occurrence the list of
district names whose polygon its buffered point intersects.  A left join
keeps an occurrence with no match as a single row whose district is null;
an occurrence matching several districts yields one row per district. -/
def joinedBairros (sjoinMatches : Record → List String) (df : List Record) :
    List (Option String) :=
  df.flatMap fun r =>
    match sjoinMatches r with
    | [] => [none]
    | l => l.map some

/-- Embedding of `value_counts(dropna=False).to_dict()` followed by
`.get(b, 0)` (lines 206, 212): how many joined rows carry district `b`. -/
def contagem_bairros (sjoinMatches : Record → List String) (df : List Record)
    (b : String) : Nat :=
  (joinedBairros sjoinMatches df).count (some b)

/-- Embedding of `tabela_contagens` (lines 189-212): one integer entry per
target district, in allow-list order, zero when no joined row matched. -/
def tabela_contagens (sjoinMatches : Record → List String) (df : List Record) :
    List (String × Nat) :=
  TARGETS.map fun b => (b, contagem_bairros sjoinMatches df b)

/-- Embedding of `total_geral` (line 243): sum of the table's counts. -/
def total_geral (sjoinMatches : Record → List String) (df : List Record) : Nat :=
  ((tabela_contagens sjoinMatches df).map Prod.snd).sum

/-- Raw input row of the occurrence JSON, before any processing.  A field's
value is meaningful only when the corresponding column exists in the table. -/
structure RawRow where
  endereco : Option String
  latitude : Option Int
  longitude : Option Int
  data_interacao : Int
  deriving Repr, DecidableEq

/-- Occurrence table as loaded by `pd.read_json` (line 74): which columns
are present, and the rows. -/
structure InputTable where
  hasEndereco : Bool
  hasLatitude : Bool
  hasLongitude : Bool
  hasDataInteracao : Bool
  rows : List RawRow
  deriving Repr, DecidableEq

/-- Whitespace test for the model of Python `str.strip`. -/
def isSpaceChar (c : Char) : Bool :=
  c == ' ' || c == '\t' || c == '\n' || c == '\r'

/-- Model of Python `str.strip()`: drop leading and trailing whitespace. -/
def stripStr (s : String) : String :=
  String.mk
    (((s.data.dropWhile isSpaceChar).reverse.dropWhile isSpaceChar).reverse)

/-- One iteration of the geocoding loop (lines 91-102) on one row.
`geocode` models the rate-limited Nominatim lookup; `none` covers both an
exception (swallowed by the bare `except`) and a null result.  Returns the
list of addresses actually sent to the geocoder (the calls made) and the
possibly-updated row. -/
def geocodeRow (geocode : String → Option (Int × Int)) (r : RawRow) :
    List String × RawRow :=
  if r.latitude.isNone || r.longitude.isNone then
    match r.endereco with
    | none => ([], r)
    | some e =>
        if stripStr e == "" then ([], r)
        else
          match geocode e with
          | none => ([e], r)
          | some (la, lo) =>
              ([e], { r with latitude := some la, longitude := some lo })
  else ([], r)

/-- The geocoding loop over all rows, in order, accumulating the calls. -/
def geocodeLoop (geocode : String → Option (Int × Int)) :
    List RawRow → List String × List RawRow
  | [] => ([], [])
  | r :: rs =>
      let p := geocodeRow geocode r
      let q := geocodeLoop geocode rs
      (p.1 ++ q.1, p.2 :: q.2)

/-- Embedding of the pipeline prefix of the script, in source order:
the `Endereco` column check (lines 79-80), creation of missing coordinate
columns (lines 85-88), the geocoding loop (lines 91-102), the
`Data_interacao` column check (lines 105-106), the period filter
(lines 109-126) and the district count table (lines 189-212).  The first
component of the result is the list of geocoder calls that were made; the
second is the error the script raised, or the filtered records together
with the district table.  The quotes around column names in the original
error messages are elided. -/
def runPipeline (geocode : String → Option (Int × Int))
    (sjoinMatches : Record → List String) (parse : String → Option Int)
    (hoje : Int) (args : Args) (inp : InputTable) :
    List String × Except String (List Record × List (String × Nat)) :=
  if inp.hasEndereco = false then
    ([], Except.error ("Coluna Endereco não encontrada no JSON de ocorrências."))
  else
    let rows0 := inp.rows.map fun r =>
      { r with
        latitude := if inp.hasLatitude then r.latitude else none
        longitude := if inp.hasLongitude then r.longitude else none }
    let g := geocodeLoop geocode rows0
    if inp.hasDataInteracao = false then
      (g.1, Except.error ("Não encontrei a coluna Data_interacao no JSON de ocorrências."))
    else
      let df : List Record :=
        g.2.map fun r => ⟨r.data_interacao, r.latitude, r.longitude⟩
      match periodFilter parse hoje args df with
      | Except.error e => (g.1, Except.error e)
      | Except.ok dff => (g.1, Except.ok (dff, tabela_contagens sjoinMatches dff))

/-! Helper lemmas about dates and filters. -/

/-- A date lower bound on a timestamp is the same test on its calendar date
or on the midnight of the bound. -/
theorem datePart_ge_iff (d ts : Int) :
    d ≤ datePart ts ↔ d * secsPerDay ≤ ts := by
  unfold datePart secsPerDay
  exact Int.le_ediv_iff_mul_le (by norm_num)

/-- A date upper bound on a timestamp is the same as a strict timestamp
bound at the following midnight. -/
theorem datePart_le_iff (ts d : Int) :
    datePart ts ≤ d ↔ ts < (d + 1) * secsPerDay := by
  rw [← Int.lt_add_one_iff]
  unfold datePart secsPerDay
  exact Int.ediv_lt_iff_lt_mul (by norm_num)

/-- Normalizing a midnight timestamp is the identity. -/
theorem normalizeTs_midnight (d : Int) :
    normalizeTs (d * secsPerDay) = d * secsPerDay := by
  unfold normalizeTs datePart
  rw [Int.mul_ediv_cancel _ (by decide : secsPerDay ≠ 0)]

/-- The strict upper bound used by the `--fim` branch is the midnight after
the end date. -/
theorem fimBound_eq (t : Int) :
    normalizeTs t + secsPerDay = (datePart t + 1) * secsPerDay := by
  unfold normalizeTs
  ring

/-- Filtering twice with the same predicate is filtering once. -/
theorem filter_idem {α : Type} (p : α → Bool) (l : List α) :
    (l.filter p).filter p = l.filter p := by
  simp [List.filter_filter]

/-- The period filter either filters every input list by one fixed
predicate, or fails with one fixed error on every input list: which of the
two happens depends only on the arguments, never on the records. -/
theorem periodFilter_cases (parse : String → Option Int) (hoje : Int)
    (args : Args) :
    (∃ p : Record → Bool, ∀ l : List Record,
        periodFilter parse hoje args l = Except.ok (l.filter p)) ∨
    (∃ e : String, ∀ l : List Record,
        periodFilter parse hoje args l = Except.error e) := by
  obtain ⟨i, f, u⟩ := args
  cases u with
  | some n =>
      exact Or.inl ⟨fun r => decide (hoje - (n - 1) ≤ datePart r.data_interacao),
        fun l => rfl⟩
  | none =>
      by_cases hi : truthy i
      · cases hpi : parse (i.getD "") with
        | none =>
            refine Or.inr
              ⟨"Parâmetro --inicio deve estar no formato YYYY-MM-DD.", fun l => ?_⟩
            simp [periodFilter, filterInicio, hi, hpi]
        | some t =>
            by_cases hf : truthy f
            · cases hpf : parse (f.getD "") with
              | none =>
                  refine Or.inr
                    ⟨"Parâmetro --fim deve estar no formato YYYY-MM-DD.", fun l => ?_⟩
                  simp [periodFilter, filterInicio, filterFim, hi, hpi, hf, hpf]
              | some t2 =>
                  refine Or.inl ⟨fun r =>
                    decide (r.data_interacao < normalizeTs t2 + secsPerDay) &&
                      decide (normalizeTs t ≤ r.data_interacao),
                    fun l => ?_⟩
                  simp [periodFilter, filterInicio, filterFim, hi, hpi, hf, hpf,
                    List.filter_filter]
            · refine Or.inl ⟨fun r => decide (normalizeTs t ≤ r.data_interacao),
                fun l => ?_⟩
              simp [periodFilter, filterInicio, filterFim, hi, hpi, hf]
      · by_cases hf : truthy f
        · cases hpf : parse (f.getD "") with
          | none =>
              refine Or.inr
                ⟨"Parâmetro --fim deve estar no formato YYYY-MM-DD.", fun l => ?_⟩
              simp [periodFilter, filterInicio, filterFim, hi, hf, hpf]
          | some t2 =>
              refine Or.inl ⟨fun r =>
                decide (r.data_interacao < normalizeTs t2 + secsPerDay),
                fun l => ?_⟩
              simp [periodFilter, filterInicio, filterFim, hi, hf, hpf]
        · refine Or.inl ⟨fun _ => true, fun l => ?_⟩
          simp [periodFilter, filterInicio, filterFim, hi, hf]

/-- C4: when `--ultimos_dias` is present the period filter's result is
determined by it alone; the supplied `--inicio`/`--fim` values (and even
the behaviour of the date parser on them) have no effect on the output. -/
theorem c4_lastdays_exclusive (parse parse2 : String → Option Int)
    (hoje : Int) (i f i2 f2 : Option String) (n : Int) (df : List Record) :
    periodFilter parse hoje ⟨i, f, some n⟩ df =
      periodFilter parse2 hoje ⟨i2, f2, some n⟩ df := rfl

/-- C9: when `--ultimos_dias` is supplied, malformed `--inicio`/`--fim`
strings never raise an error: the run behaves exactly as if those
parameters were absent, and always succeeds. -/
theorem c9_lastdays_skips_validation (parse : String → Option Int)
    (hoje : Int) (i f : Option String) (n : Int) (df : List Record) :
    periodFilter parse hoje ⟨i, f, some n⟩ df =
      periodFilter parse hoje ⟨none, none, some n⟩ df ∧
    periodFilter parse hoje ⟨i, f, some n⟩ df =
      Except.ok
        (df.filter fun r => decide (hoje - (n - 1) ≤ datePart r.data_interacao)) :=
  ⟨rfl, rfl⟩

/-- C10: an empty-string `--inicio` or `--fim` (with `--ultimos_dias`
absent) is treated exactly as if the parameter were not supplied: no
parse-error is possible for it and no bound is applied, because the
presence test is string truthiness. -/
theorem c10_empty_string_ignored (parse : String → Option Int) (hoje : Int)
    (i f : Option String) (df : List Record) :
    periodFilter parse hoje ⟨some (""), f, none⟩ df =
      periodFilter parse hoje ⟨none, f, none⟩ df ∧
    periodFilter parse hoje ⟨i, some (""), none⟩ df =
      periodFilter parse hoje ⟨i, none, none⟩ df := by
  constructor
  · rfl
  · have hI : filterInicio parse ⟨i, some (""), none⟩ df =
        filterInicio parse ⟨i, none, none⟩ df := rfl
    have hF : ∀ l, filterFim parse ⟨i, some (""), none⟩ l =
        filterFim parse ⟨i, none, none⟩ l := fun l => rfl
    simp only [periodFilter, hI, hF]

/-- C3: with `--ultimos_dias` absent, a malformed (unparseable) `--inicio`
or `--fim` string makes the filter fail with the `ValueError` whose message
names the offending parameter, and no filtered output is produced.  When
both are malformed the `--inicio` error wins, since that branch runs
first. -/
theorem c3_malformed_date_error (parse : String → Option Int) (hoje : Int)
    (args : Args) (df : List Record) (hu : args.ultimos_dias = none) :
    (truthy args.inicio = true → parse (args.inicio.getD "") = none →
      periodFilter parse hoje args df =
        Except.error ("Parâmetro --inicio deve estar no formato YYYY-MM-DD.")) ∧
    (truthy args.inicio = false → truthy args.fim = true →
      parse (args.fim.getD "") = none →
      periodFilter parse hoje args df =
        Except.error ("Parâmetro --fim deve estar no formato YYYY-MM-DD.")) ∧
    (∀ t, parse (args.inicio.getD "") = some t → truthy args.fim = true →
      parse (args.fim.getD "") = none →
      periodFilter parse hoje args df =
        Except.error ("Parâmetro --fim deve estar no formato YYYY-MM-DD.")) := by
  obtain ⟨i, f, u⟩ := args
  cases hu
  refine ⟨?_, ?_, ?_⟩
  · intro hi hp
    simp [periodFilter, filterInicio, hi, hp]
  · intro hi hf hp
    simp [periodFilter, filterInicio, filterFim, hi, hf, hp]
  · intro t ht hf hp
    by_cases hi : truthy i
    · simp [periodFilter, filterInicio, filterFim, hi, ht, hf, hp]
    · simp [periodFilter, filterInicio, filterFim, hi, hf, hp]

/-- Witness for C3 at a concrete malformed input. -/
theorem c3_malformed_date_error_witness :
    periodFilter (fun _ => none) 0 ⟨some ("not-a-date"), none, none⟩ [] =
      Except.error ("Parâmetro --inicio deve estar no formato YYYY-MM-DD.") :=
  (c3_malformed_date_error (fun _ => none) 0 ⟨some ("not-a-date"), none, none⟩
    [] rfl).1 rfl rfl

/-- C6: the period filter is idempotent.  Whatever combination of
parameters produced a filtered set, running the filter again with the same
parameters on that set returns it unchanged. -/
theorem c6_filter_idempotent (parse : String → Option Int) (hoje : Int)
    (args : Args) (df df2 : List Record)
    (h : periodFilter parse hoje args df = Except.ok df2) :
    periodFilter parse hoje args df2 = Except.ok df2 := by
  rcases periodFilter_cases parse hoje args with ⟨p, hp⟩ | ⟨e, he⟩
  · rw [hp] at h
    obtain rfl : df.filter p = df2 := Except.ok.inj h
    rw [hp, filter_idem]
  · rw [he] at h
    cases h

/-- Witness for C6 at a concrete window and record list. -/
theorem c6_filter_idempotent_witness :
    periodFilter (fun _ => some 0) 0
        ⟨some ("2024-01-01"), none, none⟩ [⟨secsPerDay, none, none⟩] =
      Except.ok [⟨secsPerDay, none, none⟩] :=
  c6_filter_idempotent (fun _ => some 0) 0 ⟨some ("2024-01-01"), none, none⟩
    [⟨-1, none, none⟩, ⟨secsPerDay, none, none⟩] [⟨secsPerDay, none, none⟩]
    (by rfl)

/-- Record used by the C1 counterexample: dated one day after `hoje`. -/
def c1rec : Record := ⟨101 * 86400, none, none⟩

/-- C1 counterexample: with `hoje = 100` and `--ultimos_dias 3`, a record
dated day 101 — strictly after today — is retained by the filter, although
the claim says the window is closed above at today.  The `ultimos_dias`
branch only applies the lower bound `>= hoje - (N - 1)`. -/
theorem c1_counterexample :
    100 < datePart c1rec.data_interacao ∧
    periodFilter (fun _ => none) 100 ⟨none, none, some 3⟩ [c1rec] =
      Except.ok [c1rec] :=
  ⟨by decide, by rfl⟩

/-- C1 amended: with `--ultimos_dias N` the filter retains exactly the
records whose calendar date is at least `hoje - (N - 1)`; there is no
upper bound, so it is equivalent to filtering with only
`start = hoje - (N - 1)` (and no end), not with `start` plus `end = hoje`. -/
theorem c1_amended_lower_bound_only (parse : String → Option Int)
    (hoje n : Int) (_hn : 1 ≤ n) (s : String) (hs : s ≠ "")
    (hp : parse s = some ((hoje - (n - 1)) * secsPerDay)) (df : List Record) :
    periodFilter parse hoje ⟨none, none, some n⟩ df =
      Except.ok
        (df.filter fun r => decide (hoje - (n - 1) ≤ datePart r.data_interacao)) ∧
    periodFilter parse hoje ⟨none, none, some n⟩ df =
      periodFilter parse hoje ⟨some s, none, none⟩ df := by
  refine ⟨rfl, ?_⟩
  have hs2 : (s == "") = false := by
    simpa using hs
  simp only [periodFilter, filterInicio, filterFim, truthy, hs2, Bool.not_false,
    if_true, Option.getD_some, hp, normalizeTs_midnight]
  congr 1
  apply List.filter_congr
  intro r _
  rw [decide_eq_decide]
  exact datePart_ge_iff (hoje - (n - 1)) r.data_interacao

/-- Parser used by the C1 witness: sends every string to the midnight of
day 98, which is `100 - (3 - 1)`. -/
def c1parse : String → Option Int := fun _ => some ((100 - (3 - 1)) * secsPerDay)

/-- Witness for the amended C1 at a concrete input. -/
theorem c1_amended_lower_bound_only_witness :
    periodFilter c1parse 100 ⟨none, none, some 3⟩ [c1rec] =
      Except.ok
        ([c1rec].filter fun r => decide (100 - (3 - 1) ≤ datePart r.data_interacao)) ∧
    periodFilter c1parse 100 ⟨none, none, some 3⟩ [c1rec] =
      periodFilter c1parse 100 ⟨some ("s"), none, none⟩ [c1rec] :=
  c1_amended_lower_bound_only c1parse 100 3 (by decide) ("s") (by decide) rfl
    [c1rec]

/-- C2: with a well-formed `--fim` parsing to timestamp `t`, the filter
keeps exactly the records whose calendar date is at most the calendar date
of `t` — so any record timestamped anywhere on the end date is kept, and
every record on the next day or later is excluded (the upper bound is the
midnight after the end date, exclusive).  With a well-formed `--inicio`
parsing to `u`, records from the midnight of that date onward are kept. -/
theorem c2_window_semantics (parse : String → Option Int) (hoje : Int)
    (sIni sFim : String) (u t : Int)
    (hsi : sIni ≠ "") (hpi : parse sIni = some u)
    (hsf : sFim ≠ "") (hpf : parse sFim = some t) (df : List Record) :
    periodFilter parse hoje ⟨none, some sFim, none⟩ df =
      Except.ok
        (df.filter fun r => decide (datePart r.data_interacao ≤ datePart t)) ∧
    periodFilter parse hoje ⟨some sIni, none, none⟩ df =
      Except.ok
        (df.filter fun r => decide (normalizeTs u ≤ r.data_interacao)) := by
  have hsf2 : (sFim == "") = false := by simpa using hsf
  have hsi2 : (sIni == "") = false := by simpa using hsi
  constructor
  · simp [periodFilter, filterInicio, filterFim, truthy, hsf2, hpf]
    apply List.filter_congr
    intro r _
    rw [decide_eq_decide, fimBound_eq]
    exact (datePart_le_iff r.data_interacao (datePart t)).symm
  · simp [periodFilter, filterInicio, filterFim, truthy, hsi2, hpi]

/-- Parser used by the C2 witness: `"i"` is day 5, `"f"` is day 10 with a
time-of-day component. -/
def c2parse : String → Option Int := fun s =>
  if s = "i" then some (5 * secsPerDay)
  else if s = "f" then some (10 * secsPerDay + 3600) else none

/-- Records used by the C2 witness: one on the end date, one the day
after. -/
def c2df : List Record := [⟨10 * secsPerDay + 7200, none, none⟩, ⟨11 * secsPerDay, none, none⟩]

/-- Witness for C2 at a concrete input. -/
theorem c2_window_semantics_witness :
    periodFilter c2parse 0 ⟨none, some ("f"), none⟩ c2df =
      Except.ok
        (c2df.filter fun r =>
          decide (datePart r.data_interacao ≤ datePart (10 * secsPerDay + 3600))) ∧
    periodFilter c2parse 0 ⟨some ("i"), none, none⟩ c2df =
      Except.ok
        (c2df.filter fun r => decide (normalizeTs (5 * secsPerDay) ≤ r.data_interacao)) :=
  c2_window_semantics c2parse 0 ("i") ("f") (5 * secsPerDay)
    (10 * secsPerDay + 3600) (by decide) (by rfl) (by decide) (by rfl) c2df

/-- C5: the district count table has exactly one integer entry per
allow-list name (in allow-list order, with no duplicate names); a target
district matched by no record gets the entry zero; and on the empty record
collection every count is zero and the grand total is zero. -/
theorem c5_table_totals (sjoinMatches : Record → List String)
    (df : List Record) :
    (tabela_contagens sjoinMatches df).map Prod.fst = TARGETS ∧
    TARGETS.Nodup ∧
    (∀ b, b ∈ TARGETS → (∀ r, r ∈ df → b ∉ sjoinMatches r) →
      (b, 0) ∈ tabela_contagens sjoinMatches df) ∧
    tabela_contagens sjoinMatches [] = TARGETS.map (fun b => (b, 0)) ∧
    total_geral sjoinMatches [] = 0 := by
  refine ⟨?_, by decide, ?_, rfl, rfl⟩
  · rw [tabela_contagens, List.map_map]
    have hcomp :
        (Prod.fst ∘ fun b => (b, contagem_bairros sjoinMatches df b)) = id := by
      funext b
      rfl
    rw [hcomp, List.map_id]
  · intro b hb hnone
    have hcount : contagem_bairros sjoinMatches df b = 0 := by
      rw [contagem_bairros, List.count_eq_zero]
      intro hmem
      rw [joinedBairros, List.mem_flatMap] at hmem
      obtain ⟨r, hr, hin⟩ := hmem
      revert hin
      cases hms : sjoinMatches r with
      | nil => simp
      | cons x xs =>
          intro hin
          rw [List.mem_map] at hin
          obtain ⟨y, hy, hxy⟩ := hin
          obtain rfl : y = b := Option.some.inj hxy
          exact hnone r hr (hms ▸ hy)
    rw [tabela_contagens, List.mem_map]
    exact ⟨b, hb, by rw [hcount]⟩

/-- Witness for C5 at a concrete join function and record list. -/
theorem c5_table_totals_witness :
    ("LIBERDADE", 0) ∈ tabela_contagens (fun _ => []) ([] : List Record) :=
  (c5_table_totals (fun _ => []) []).2.2.1 ("LIBERDADE") (by decide)
    (fun r hr => absurd hr (List.not_mem_nil r))

/-- Normalization acts character by character: `normalize_str` is the
concatenation of the per-character images. -/
theorem normalize_str_eq_flatMap (s : String) :
    normalize_str s = String.mk (s.data.flatMap normChar) := by
  rw [normalize_str]
  congr 1
  induction s.data with
  | nil => rfl
  | cons c cs ih =>
      simp only [List.flatMap_cons, List.filter_append, List.map_append, ih,
        normChar]

/-- Two character lists whose entries are pairwise the same letter up to
accents and case produce the same normalized output. -/
theorem flatMap_normChar_congr {u v : List Char}
    (h : List.Forall₂ (fun c d => normChar c = normChar d) u v) :
    u.flatMap normChar = v.flatMap normChar := by
  induction h with
  | nil => rfl
  | cons h1 h2 ih => simp only [List.flatMap_cons, h1, ih]

/-- C7: the aggregator's normalization strips diacritics and uppercases,
so any two strings that agree letter-for-letter up to accents and case are
mapped to the same aggregation bucket; in particular the variants of
"Liberdade" all normalize to the allow-list entry "LIBERDADE", and every
allow-list entry is its own normal form (the allow-list is normalized). -/
theorem c7_normalization_buckets :
    (∀ u v : String,
        List.Forall₂ (fun c d => normChar c = normChar d) u.data v.data →
        normalize_str u = normalize_str v) ∧
    normalize_str ("Liberdade") = "LIBERDADE" ∧
    normalize_str ("LIBERDADE") = "LIBERDADE" ∧
    normalize_str ("Líberdade") = "LIBERDADE" ∧
    (∀ t, t ∈ TARGETS → normalize_str t = t) := by
  refine ⟨?_, by decide, by decide, by decide, by decide⟩
  intro u v h
  rw [normalize_str_eq_flatMap, normalize_str_eq_flatMap]
  exact congrArg String.mk (flatMap_normChar_congr h)

/-- Witness for C7: the accented variant and the allow-list entry are in
the same bucket. -/
theorem c7_normalization_buckets_witness :
    normalize_str ("Líberdade") = normalize_str ("LIBERDADE") :=
  c7_normalization_buckets.1 ("Líberdade") ("LIBERDADE") (by decide)

/-- Geocoder used by the C8 counterexample: resolves every address. -/
def c8geocode : String → Option (Int × Int) := fun _ => some (1, 2)

/-- Input used by the C8 counterexample: the `Endereco` column exists, the
`Data_interacao` column does not, and one row needs geocoding. -/
def c8input : InputTable :=
  ⟨true, true, true, false, [⟨some ("Rua A"), none, some 0, 0⟩]⟩

/-- C8 counterexample: on an input whose record source is missing the
required `Data_interacao` field, the program does raise the descriptive
error, but only after the geocoding loop has already run — the geocoder was
called once (for "Rua A") before the failure, so the error does not come
before any processing of the records, contrary to the claim. -/
theorem c8_counterexample :
    runPipeline c8geocode (fun _ => []) (fun _ => none) 0 ⟨none, none, none⟩
        c8input =
      (["Rua A"],
        Except.error ("Não encontrei a coluna Data_interacao no JSON de ocorrências.")) ∧
    (["Rua A"] : List String) ≠ [] :=
  ⟨by rfl, by decide⟩

/-- C8 amended: a missing `Endereco` column fails before any processing —
in particular with no geocoder call; a missing `Data_interacao` column
(with `Endereco` present) also fails with its descriptive error and
produces no output, but only after the geocoding loop, which may already
have issued calls.  In both cases no filtering or aggregation happens and
there is no retry. -/
theorem c8_amended_check_order (geocode : String → Option (Int × Int))
    (sjoinMatches : Record → List String) (parse : String → Option Int)
    (hoje : Int) (args : Args) (inp : InputTable) :
    (inp.hasEndereco = false →
      runPipeline geocode sjoinMatches parse hoje args inp =
        ([], Except.error ("Coluna Endereco não encontrada no JSON de ocorrências."))) ∧
    (inp.hasEndereco = true → inp.hasDataInteracao = false →
      (runPipeline geocode sjoinMatches parse hoje args inp).2 =
        Except.error ("Não encontrei a coluna Data_interacao no JSON de ocorrências.")) := by
  constructor
  · intro h
    simp [runPipeline, h]
  · intro h1 h2
    simp [runPipeline, h1, h2]

/-- Witness for the amended C8: an input with no `Endereco` column fails
immediately, with no geocoder calls. -/
theorem c8_amended_check_order_witness :
    runPipeline c8geocode (fun _ => []) (fun _ => none) 0 ⟨none, none, none⟩
        ⟨false, true, true, true, []⟩ =
      ([], Except.error ("Coluna Endereco não encontrada no JSON de ocorrências.")) :=
  (c8_amended_check_order c8geocode (fun _ => []) (fun _ => none) 0
    ⟨none, none, none⟩ ⟨false, true, true, true, []⟩).1 rfl
